import Mathlib

/- Shallow embedding of the horadric-portfolio rule/cooldown/regime engine:
   src/data.py, src/indicators.py, src/rules.py, src/storage.py, src/regime.py.
   Python floats are modelled as rationals; datetimes as rational seconds since
   an arbitrary epoch.  Exceptions escaping a rule predicate are modelled by
   Except; store files that fail to load are modelled by an explicit state-file
   type. -/

/-- data.py, class SymbolData: per-symbol metrics bundle. -/
structure SymbolData where
  symbol : String
  current_price : ℚ
  previous_close : ℚ
  intraday_change_pct : ℚ
  change_5d_pct : Option ℚ
  high_52w : Option ℚ
  low_52w : Option ℚ
  sma_200 : Option ℚ
  name : String
  deriving DecidableEq

/-- data.py, class MarketSnapshot: timestamp plus symbol-keyed metrics map
(dict modelled as an association list with unique keys). -/
structure MarketSnapshot where
  timestamp : ℚ
  data : List (String × SymbolData)
  deriving DecidableEq

/-- data.py, MarketSnapshot.get: dict.get, absent symbol yields none. -/
def MarketSnapshot.get (s : MarketSnapshot) (sym : String) : Option SymbolData :=
  s.data.lookup sym

/-- indicators.py, get_drawdown_from_high. -/
def get_drawdown_from_high (symbol_data : SymbolData) : Option ℚ :=
  match symbol_data.high_52w with
  | none => none
  | some h => if h = 0 then none else some (((symbol_data.current_price - h) / h) * 100)

/-- indicators.py, is_below_200dma. -/
def is_below_200dma (symbol_data : SymbolData) : Bool :=
  match symbol_data.sma_200 with
  | none => false
  | some s => decide (symbol_data.current_price < s)

/-- rules.py, class Severity. -/
inductive Severity where
  | critical
  | high
  | medium
  | low
  deriving DecidableEq

/-- rules.py: Severity.value (the Enum string payload). -/
def Severity.value : Severity → String
  | .critical => "critical"
  | .high => "high"
  | .medium => "medium"
  | .low => "low"

/-- rules.py, load_config: the configuration document, sections 'rules' and
'cooldowns' (scalar thresholds only; the list-valued key 'spy_drawdown_levels'
present in the defaults dict is never read by any predicate or by the registry
construction, which uses the module constant DRAWDOWN_LEVELS instead). -/
structure Config where
  rules : List (String × ℚ)
  cooldowns : List (String × ℚ)
  deriving DecidableEq

/-- rules.py, load_config: the defaults branch (no config.yml present). -/
def load_config : Config :=
  ⟨[("credit_stress_intraday", -1.5),
    ("credit_stress_5d", -3.0),
    ("liquidity_stress_intraday", 1.0),
    ("liquidity_stress_5d", 2.0),
    ("volatility_level", 30),
    ("volatility_spike", 8),
    ("growth_weakness_threshold", -1.5),
    ("smallcap_weakness_threshold", -2.0),
    ("defensive_hedge_bid", 1.5),
    ("rate_shock_bps", 15)],
   [("critical", 45), ("high", 90), ("medium", 240), ("low", 1440)]⟩

/-- rules.py, get_threshold: config['rules'].get(key, default). -/
def get_threshold (cfg : Config) (key : String) (default : ℚ) : ℚ :=
  (cfg.rules.lookup key).getD default

/-- rules.py, get_cooldown_minutes: config['cooldowns'].get(sev, defaults.get(sev, 60)). -/
def get_cooldown_minutes (cfg : Config) (severity : Severity) : ℚ :=
  (cfg.cooldowns.lookup severity.value).getD
    ((([("critical", (45 : ℚ)), ("high", 90), ("medium", 240), ("low", 1440)] :
        List (String × ℚ)).lookup severity.value).getD 60)

/-- rules.py: the mutable ctx dict a predicate may write 'value', 'symbol' and
'extra' into; modelled as a record returned alongside the Bool. -/
structure Ctx where
  value : Option ℚ
  symbol : Option String
  extra : Option (List (String × ℚ))
  deriving DecidableEq

/-- The empty ctx dict passed to each predicate. -/
def Ctx.empty : Ctx := ⟨none, none, none⟩

/-- rules.py, check_credit_stress_intraday. -/
def check_credit_stress_intraday (cfg : Config) (snapshot : MarketSnapshot) : Bool × Ctx :=
  match snapshot.get ("HYG") with
  | none => (false, Ctx.empty)
  | some hyg =>
    let threshold := get_threshold cfg ("credit_stress_intraday") (-1.5)
    if hyg.intraday_change_pct ≤ threshold then
      (true, ⟨some hyg.intraday_change_pct, some ("HYG"), none⟩)
    else (false, Ctx.empty)

/-- rules.py, check_credit_stress_5d. -/
def check_credit_stress_5d (cfg : Config) (snapshot : MarketSnapshot) : Bool × Ctx :=
  match snapshot.get ("HYG") with
  | none => (false, Ctx.empty)
  | some hyg =>
    match hyg.change_5d_pct with
    | none => (false, Ctx.empty)
    | some c5 =>
      let threshold := get_threshold cfg ("credit_stress_5d") (-3.0)
      if c5 ≤ threshold then (true, ⟨some c5, some ("HYG"), none⟩)
      else (false, Ctx.empty)

/-- rules.py, check_liquidity_stress_intraday. -/
def check_liquidity_stress_intraday (cfg : Config) (snapshot : MarketSnapshot) : Bool × Ctx :=
  match snapshot.get ("DX-Y.NYB") with
  | none => (false, Ctx.empty)
  | some dxy =>
    let threshold := get_threshold cfg ("liquidity_stress_intraday") (1.0)
    if dxy.intraday_change_pct ≥ threshold then
      (true, ⟨some dxy.intraday_change_pct, some ("DXY"), none⟩)
    else (false, Ctx.empty)

/-- rules.py, check_liquidity_stress_5d. -/
def check_liquidity_stress_5d (cfg : Config) (snapshot : MarketSnapshot) : Bool × Ctx :=
  match snapshot.get ("DX-Y.NYB") with
  | none => (false, Ctx.empty)
  | some dxy =>
    match dxy.change_5d_pct with
    | none => (false, Ctx.empty)
    | some c5 =>
      let threshold := get_threshold cfg ("liquidity_stress_5d") (2.0)
      if c5 ≥ threshold then (true, ⟨some c5, some ("DXY"), none⟩)
      else (false, Ctx.empty)

/-- rules.py, check_volatility_elevated. -/
def check_volatility_elevated (cfg : Config) (snapshot : MarketSnapshot) : Bool × Ctx :=
  match snapshot.get ("^VIX") with
  | none => (false, Ctx.empty)
  | some vix =>
    let threshold := get_threshold cfg ("volatility_level") (30)
    if vix.current_price ≥ threshold then
      (true, ⟨some vix.current_price, some ("VIX"), none⟩)
    else (false, Ctx.empty)

/-- rules.py, check_volatility_spike. -/
def check_volatility_spike (cfg : Config) (snapshot : MarketSnapshot) : Bool × Ctx :=
  match snapshot.get ("^VIX") with
  | none => (false, Ctx.empty)
  | some vix =>
    let threshold := get_threshold cfg ("volatility_spike") (8)
    if vix.intraday_change_pct ≥ threshold then
      (true, ⟨some vix.intraday_change_pct, some ("VIX"), none⟩)
    else (false, Ctx.empty)

/-- rules.py, check_growth_weakness. -/
def check_growth_weakness (cfg : Config) (snapshot : MarketSnapshot) : Bool × Ctx :=
  match snapshot.get ("QQQ"), snapshot.get ("SPY") with
  | some qqq, some spy =>
    let threshold := get_threshold cfg ("growth_weakness_threshold") (-1.5)
    let relative_perf := qqq.intraday_change_pct - spy.intraday_change_pct
    if relative_perf ≤ threshold then
      (true, ⟨some relative_perf, none,
        some [("qqq", qqq.intraday_change_pct), ("spy", spy.intraday_change_pct)]⟩)
    else (false, Ctx.empty)
  | _, _ => (false, Ctx.empty)

/-- rules.py, check_smallcap_weakness. -/
def check_smallcap_weakness (cfg : Config) (snapshot : MarketSnapshot) : Bool × Ctx :=
  match snapshot.get ("IWM"), snapshot.get ("SPY") with
  | some iwm, some spy =>
    let threshold := get_threshold cfg ("smallcap_weakness_threshold") (-2.0)
    let relative_perf := iwm.intraday_change_pct - spy.intraday_change_pct
    if relative_perf ≤ threshold then
      (true, ⟨some relative_perf, none,
        some [("iwm", iwm.intraday_change_pct), ("spy", spy.intraday_change_pct)]⟩)
    else (false, Ctx.empty)
  | _, _ => (false, Ctx.empty)

/-- rules.py, check_defensive_hedge_bid. -/
def check_defensive_hedge_bid (cfg : Config) (snapshot : MarketSnapshot) : Bool × Ctx :=
  match snapshot.get ("GLD"), snapshot.get ("TLT") with
  | some gld, some tlt =>
    let threshold := get_threshold cfg ("defensive_hedge_bid") (1.5)
    if gld.intraday_change_pct ≥ threshold ∧ tlt.intraday_change_pct ≥ threshold then
      (true, ⟨none, none,
        some [("gld", gld.intraday_change_pct), ("tlt", tlt.intraday_change_pct)]⟩)
    else (false, Ctx.empty)
  | _, _ => (false, Ctx.empty)

/-- rules.py, check_combined_stress.  Note: the -2.5 and 0 thresholds are
hardcoded in the function body, not read via get_threshold. -/
def check_combined_stress (cfg : Config) (snapshot : MarketSnapshot) : Bool × Ctx :=
  match snapshot.get ("SPY"), snapshot.get ("TLT") with
  | some spy, some tlt =>
    if spy.intraday_change_pct ≤ -2.5 ∧ tlt.intraday_change_pct < 0 then
      (true, ⟨none, none,
        some [("spy", spy.intraday_change_pct), ("tlt", tlt.intraday_change_pct)]⟩)
    else (false, Ctx.empty)
  | _, _ => (false, Ctx.empty)

/-- rules.py, check_risk_appetite_positive.  Note: the 1.5 threshold is
hardcoded, not read via get_threshold. -/
def check_risk_appetite_positive (cfg : Config) (snapshot : MarketSnapshot) : Bool × Ctx :=
  match snapshot.get ("SPY"), snapshot.get ("QQQ") with
  | some spy, some qqq =>
    if spy.intraday_change_pct ≥ 1.5 ∧ qqq.intraday_change_pct ≥ spy.intraday_change_pct then
      (true, ⟨none, none,
        some [("spy", spy.intraday_change_pct), ("qqq", qqq.intraday_change_pct)]⟩)
    else (false, Ctx.empty)
  | _, _ => (false, Ctx.empty)

/-- rules.py, check_btc_major_move.  Note: the 8.0 threshold is hardcoded,
not read via get_threshold. -/
def check_btc_major_move (cfg : Config) (snapshot : MarketSnapshot) : Bool × Ctx :=
  match snapshot.get ("BTC-USD") with
  | none => (false, Ctx.empty)
  | some btc =>
    if |btc.intraday_change_pct| ≥ 8.0 then
      (true, ⟨some btc.intraday_change_pct, some ("BTC"), none⟩)
    else (false, Ctx.empty)

/-- rules.py, create_drawdown_checker: the closure produced for one level. -/
def drawdown_check (level : ℚ) (snapshot : MarketSnapshot) : Bool × Ctx :=
  match snapshot.get ("SPY") with
  | none => (false, Ctx.empty)
  | some spy =>
    match get_drawdown_from_high spy with
    | none => (false, Ctx.empty)
    | some drawdown =>
      if drawdown ≤ level then (true, ⟨some drawdown, some ("SPY"), none⟩)
      else (false, Ctx.empty)

/-- rules.py, class Rule.  A predicate may raise: its invocation is modelled
as Except, where `error` is an unhandled Python exception. -/
structure Rule where
  name : String
  severity : Severity
  category : String
  description : String
  check : MarketSnapshot → Except String (Bool × Ctx)
  message_template : String

/-- rules.py, class TriggeredRule. -/
structure TriggeredRule where
  rule : Rule
  value : Option ℚ
  symbol : Option String
  extra_context : Option (List (String × ℚ))

/-- Lifts a non-raising predicate (all the built-ins) into the Except form. -/
def ok_check (f : Config → MarketSnapshot → Bool × Ctx) (cfg : Config) :
    MarketSnapshot → Except String (Bool × Ctx) :=
  fun s => Except.ok (f cfg s)

/-- rules.py, DRAWDOWN_LEVELS: a module constant (not read from config). -/
def DRAWDOWN_LEVELS : List Int := [-2, -4, -6, -10, -15, -20]

/-- rules.py, the drawdown-registry loop body: one Rule per level. -/
def drawdown_rule (level : Int) : Rule :=
  ⟨"SPY_DRAWDOWN_" ++ toString level.natAbs ++ "PCT",
   if level.natAbs ≤ 6 then Severity.medium else Severity.high,
   "Opportunity",
   "SPY drawdown at " ++ toString level.natAbs ++ "% from 52-week high",
   fun s => Except.ok (drawdown_check (level : ℚ) s),
   "Drawdown Alert: SPY \x7bvalue:.1f\x7d% from high - " ++ toString level.natAbs ++ "% threshold"⟩

/-- rules.py, RULES: the full registry (12 named rules plus the drawdown
family), parameterized by the loaded configuration the predicates read. -/
def RULES (cfg : Config) : List Rule :=
  [⟨"CREDIT_STRESS_INTRADAY", Severity.critical, "Stress",
    "High yield bonds dropping sharply intraday",
    ok_check check_credit_stress_intraday cfg,
    "Credit Stress: HYG \x7bvalue:.1f\x7d% intraday - credit spreads widening"⟩,
   ⟨"COMBINED_STRESS", Severity.critical, "Stress",
    "Both equities and bonds selling off together",
    ok_check check_combined_stress cfg,
    "Combined Stress: SPY \x7bspy:.1f\x7d% and TLT \x7btlt:.1f\x7d% - nowhere to hide"⟩,
   ⟨"CREDIT_STRESS_5D", Severity.high, "Stress",
    "Sustained high yield weakness over 5 days",
    ok_check check_credit_stress_5d cfg,
    "Credit Stress (5D): HYG \x7bvalue:.1f\x7d% over 5 days - sustained spread widening"⟩,
   ⟨"LIQUIDITY_STRESS_INTRADAY", Severity.high, "Stress",
    "Dollar spiking sharply (liquidity tightening)",
    ok_check check_liquidity_stress_intraday cfg,
    "Liquidity Stress: DXY +\x7bvalue:.1f\x7d% intraday - dollar squeeze"⟩,
   ⟨"LIQUIDITY_STRESS_5D", Severity.high, "Stress",
    "Sustained dollar strength over 5 days",
    ok_check check_liquidity_stress_5d cfg,
    "Liquidity Stress (5D): DXY +\x7bvalue:.1f\x7d% over 5 days - sustained tightening"⟩,
   ⟨"VOLATILITY_ELEVATED", Severity.high, "Stress",
    "VIX at elevated fear levels",
    ok_check check_volatility_elevated cfg,
    "Volatility Elevated: VIX at \x7bvalue:.1f\x7d - fear gauge elevated"⟩,
   ⟨"VOLATILITY_SPIKE", Severity.high, "Stress",
    "VIX spiking sharply intraday",
    ok_check check_volatility_spike cfg,
    "Volatility Spike: VIX +\x7bvalue:.1f\x7d% intraday - sudden fear"⟩,
   ⟨"GROWTH_WEAKNESS", Severity.medium, "Leadership",
    "Growth/tech underperforming broad market",
    ok_check check_growth_weakness cfg,
    "Growth Weakness: QQQ underperforming SPY by \x7bvalue:.1f\x7d%"⟩,
   ⟨"SMALLCAP_WEAKNESS", Severity.medium, "Leadership",
    "Small caps underperforming (risk-off signal)",
    ok_check check_smallcap_weakness cfg,
    "Small Cap Weakness: IWM underperforming SPY by \x7bvalue:.1f\x7d%"⟩,
   ⟨"DEFENSIVE_HEDGE_BID", Severity.medium, "Sentiment",
    "Flight to safety into gold and treasuries",
    ok_check check_defensive_hedge_bid cfg,
    "Defensive Bid: GLD +\x7bgld:.1f\x7d% and TLT +\x7btlt:.1f\x7d% - flight to safety"⟩,
   ⟨"RISK_APPETITE_POSITIVE", Severity.low, "Sentiment",
    "Positive risk appetite with growth leading",
    ok_check check_risk_appetite_positive cfg,
    "Risk-On: SPY +\x7bspy:.1f\x7d% with QQQ +\x7bqqq:.1f\x7d% - growth leading"⟩,
   ⟨"BTC_MAJOR_MOVE", Severity.low, "Sentiment",
    "Major Bitcoin move (risk sentiment proxy)",
    ok_check check_btc_major_move cfg,
    "Crypto Signal: BTC \x7bvalue:+.1f\x7d% - major move in risk sentiment proxy"⟩]
  ++ DRAWDOWN_LEVELS.map drawdown_rule

/-- rules.py, evaluate_rules: the evaluation loop.  A raising predicate is
caught (the except branch), logged, and skipped; evaluation of the remaining
rules continues and the function itself always returns a list. -/
def evaluate_rules (rules : List Rule) (snapshot : MarketSnapshot) : List TriggeredRule :=
  match rules with
  | [] => []
  | r :: rest =>
    match r.check snapshot with
    | Except.error _ => evaluate_rules rest snapshot
    | Except.ok (b, ctx) =>
      if b then ⟨r, ctx.value, ctx.symbol, ctx.extra⟩ :: evaluate_rules rest snapshot
      else evaluate_rules rest snapshot

/-- The triggered rule names of one evaluation pass, in registration order. -/
def triggered_names (rules : List Rule) (snapshot : MarketSnapshot) : List String :=
  (evaluate_rules rules snapshot).map (fun tr => tr.rule.name)

/- ===== storage.py: JSON-based cooldown state ===== -/

/-- storage.py: a stored last-fire timestamp string.  `valid t` is the
isoformat() text record_fire wrote for instant t (which fromisoformat parses
back); `malformed s` is any text or non-text value fromisoformat rejects. -/
inductive StoredTs where
  | valid (t : ℚ)
  | malformed (s : String)
  deriving DecidableEq

/-- datetime.fromisoformat applied to a stored value: the raising call is
modelled as none (the except branch in should_fire). -/
def fromisoformat : StoredTs → Option ℚ
  | .valid t => some t
  | .malformed _ => none

/-- storage.py: the parsed contents of state.json (schema: 'last_alerts'
dict plus 'version' tag). -/
structure StorageState where
  last_alerts : List (String × StoredTs)
  version : Int
  deriving DecidableEq

/-- storage.py: the state file on disk.  `corrupt` is a file that raises
json.JSONDecodeError or IOError on load; `absent` a missing file. -/
inductive StateFile where
  | absent
  | corrupt
  | good (s : StorageState)
  deriving DecidableEq

/-- storage.py, load_state: a missing or unloadable file yields the default
empty store with version 1. -/
def load_state : StateFile → StorageState
  | .good s => s
  | .absent => ⟨[], 1⟩
  | .corrupt => ⟨[], 1⟩

/-- storage.py, save_state (the successful write). -/
def save_state (s : StorageState) : StateFile := StateFile.good s

/-- Python dict assignment d[k] = v: replace in place, else append. -/
def dict_set : List (String × StoredTs) → String → StoredTs → List (String × StoredTs)
  | [], k, v => [(k, v)]
  | (k', v') :: rest, k, v =>
    if k' = k then (k, v) :: rest else (k', v') :: dict_set rest k v

/-- storage.py, should_fire: loads the state, parses the stored timestamp for
the rule (malformed parses fail open to true), and compares the elapsed time
against the severity cooldown (minutes, hence *60 in seconds).  The returned
file is the file after the call: should_fire never writes. -/
def should_fire (cfg : Config) (rule_name : String) (severity : Severity)
    (now : ℚ) (file : StateFile) : Bool × StateFile :=
  let state := load_state file
  match state.last_alerts.lookup rule_name with
  | none => (true, file)
  | some ts =>
    match fromisoformat ts with
    | none => (true, file)
    | some last_fire =>
      (decide (now - last_fire ≥ get_cooldown_minutes cfg severity * 60), file)

/-- storage.py, record_fire: loads the state, stores now.isoformat() under the
rule name, and saves; returns the file after the write. -/
def record_fire (rule_name : String) (now : ℚ) (file : StateFile) : StateFile :=
  let state := load_state file
  save_state ⟨dict_set state.last_alerts rule_name (StoredTs.valid now), state.version⟩

/- ===== regime.py: NORMAL vs DEFENSIVE classification ===== -/

/-- regime.py, class Regime. -/
inductive Regime where
  | NORMAL
  | DEFENSIVE
  deriving DecidableEq

/-- regime.py, class RegimeAssessment. -/
structure RegimeAssessment where
  regime : Regime
  triggers : List String
  summary : String
  deriving DecidableEq

/-- regime.py, load_regime_thresholds: the defaults branch. -/
def load_regime_thresholds : List (String × ℚ) :=
  [("hyg_5d_threshold", -3.0),
   ("dxy_5d_threshold", 2.0),
   ("vix_level_threshold", 30),
   ("spy_tlt_combined_threshold", -2.5)]

/-- Floor of a rational (via floor division of numerator by denominator). -/
def rat_floor (q : ℚ) : ℤ := Int.fdiv q.num (q.den : ℤ)

/-- Round to nearest integer, ties to even — CPython's rounding for the
\x7b:.1f\x7d format specifier applied to the scaled value. -/
def round_half_even (q : ℚ) : ℤ :=
  let f := rat_floor q
  let frac : ℚ := q - (f : ℚ)
  if 2 * frac < 1 then f
  else if 1 < 2 * frac then f + 1
  else if f % 2 = 0 then f else f + 1

/-- Python format(x, '.1f'): one digit after the decimal point. -/
def fmt1 (q : ℚ) : String :=
  let n : ℤ := round_half_even (q * 10)
  (if n < 0 then "-" else "") ++ toString (n.natAbs / 10) ++ "." ++ toString (n.natAbs % 10)

/-- regime.py, assess_regime check 1 (credit stress via HYG 5d). -/
def regime_credit_part (thresholds : List (String × ℚ)) (snapshot : MarketSnapshot) :
    List String :=
  match snapshot.get ("HYG") with
  | none => []
  | some hyg =>
    match hyg.change_5d_pct with
    | none => []
    | some c5 =>
      if c5 ≤ (thresholds.lookup ("hyg_5d_threshold")).getD (-3.0) then
        ["Credit stress: HYG 5D return " ++ fmt1 c5 ++ "%"]
      else []

/-- regime.py, assess_regime check 2 (liquidity tightening via DXY 5d). -/
def regime_dxy_part (thresholds : List (String × ℚ)) (snapshot : MarketSnapshot) :
    List String :=
  match snapshot.get ("DX-Y.NYB") with
  | none => []
  | some dxy =>
    match dxy.change_5d_pct with
    | none => []
    | some c5 =>
      if c5 ≥ (thresholds.lookup ("dxy_5d_threshold")).getD (2.0) then
        ["Liquidity tightening: DXY 5D return +" ++ fmt1 c5 ++ "%"]
      else []

/-- regime.py, assess_regime check 3 (VIX elevated and rising).  vix_prev is
the prior-day close obtained from get_vix_previous_close (external fetch,
modelled as a parameter; none when unavailable). -/
def regime_vix_part (thresholds : List (String × ℚ)) (vix_prev : Option ℚ)
    (snapshot : MarketSnapshot) : List String :=
  match snapshot.get ("^VIX") with
  | none => []
  | some vix =>
    if vix.current_price ≥ (thresholds.lookup ("vix_level_threshold")).getD (30) then
      match vix_prev with
      | some p =>
        if vix.current_price > p then
          ["Elevated and rising volatility: VIX " ++ fmt1 vix.current_price ++
            " (prev: " ++ fmt1 p ++ ")"]
        else []
      | none => ["Elevated volatility: VIX " ++ fmt1 vix.current_price]
    else []

/-- regime.py, assess_regime check 4 (combined SPY + TLT stress). -/
def regime_combined_part (thresholds : List (String × ℚ)) (snapshot : MarketSnapshot) :
    List String :=
  match snapshot.get ("SPY"), snapshot.get ("TLT") with
  | some spy, some tlt =>
    if spy.intraday_change_pct ≤ (thresholds.lookup ("spy_tlt_combined_threshold")).getD (-2.5)
        ∧ tlt.intraday_change_pct < 0 then
      ["Combined stress: SPY " ++ fmt1 spy.intraday_change_pct ++
        "% and TLT " ++ fmt1 tlt.intraday_change_pct ++ "%"]
    else []
  | _, _ => []

/-- regime.py, assess_regime check 5 (SPY below 200dma with rates rising). -/
def regime_structural_part (snapshot : MarketSnapshot) : List String :=
  match snapshot.get ("SPY") with
  | none => []
  | some spy =>
    if is_below_200dma spy then
      match snapshot.get ("^TNX") with
      | none => []
      | some tnx =>
        if tnx.intraday_change_pct > 0 then
          ["Structural weakness: SPY below 200dma with rates rising"]
        else []
    else []

/-- regime.py, assess_regime: runs the five checks in order, collecting every
active trigger, then classifies: any trigger means DEFENSIVE, none NORMAL. -/
def assess_regime (thresholds : List (String × ℚ)) (vix_prev : Option ℚ)
    (snapshot : MarketSnapshot) : RegimeAssessment :=
  let triggers :=
    regime_credit_part thresholds snapshot ++
    regime_dxy_part thresholds snapshot ++
    regime_vix_part thresholds vix_prev snapshot ++
    regime_combined_part thresholds snapshot ++
    regime_structural_part snapshot
  if triggers.isEmpty then
    ⟨Regime.NORMAL, triggers, "NORMAL regime - no significant stress signals detected"⟩
  else
    ⟨Regime.DEFENSIVE, triggers,
      "DEFENSIVE regime - " ++ toString triggers.length ++ " warning signal(s) active"⟩

/- ===== helper lemmas (shared) ===== -/

theorem lookup_dict_set_self (l : List (String × StoredTs)) (k : String) (v : StoredTs) :
    (dict_set l k v).lookup k = some v := by
  induction l with
  | nil => simp [dict_set, List.lookup]
  | cons hd tl ih =>
    obtain ⟨k', v'⟩ := hd
    by_cases h : k' = k
    · simp [dict_set, h, List.lookup]
    · have hb : (k == k') = false := beq_eq_false_iff_ne.mpr (Ne.symm h)
      simp [dict_set, h, List.lookup, hb, ih]

theorem lookup_dict_set_ne (l : List (String × StoredTs)) (k k' : String) (v : StoredTs)
    (h : k' ≠ k) : (dict_set l k v).lookup k' = l.lookup k' := by
  have hb : (k' == k) = false := beq_eq_false_iff_ne.mpr h
  induction l with
  | nil => simp [dict_set, List.lookup, hb]
  | cons hd tl ih =>
    obtain ⟨k0, v0⟩ := hd
    by_cases h0 : k0 = k
    · subst h0
      simp [dict_set, List.lookup, hb]
    · simp [dict_set, h0, List.lookup, ih]

/- ===== C2: cooldown record/query round-trip ===== -/

/-- C2: for every rule name and severity, record_fire then an immediate
should_fire (same instant, any cooldown of at least one second) returns false,
and should_fire returns true once the elapsed time exceeds that severity's
configured cooldown window; both queries go through the saved-then-reloaded
persisted state. -/
theorem record_fire_then_should_fire (cfg : Config) (rule_name : String)
    (severity : Severity) (t now : ℚ) (file : StateFile)
    (h1 : 1 ≤ get_cooldown_minutes cfg severity * 60) :
    (should_fire cfg rule_name severity t (record_fire rule_name t file)).1 = false ∧
    (get_cooldown_minutes cfg severity * 60 < now - t →
      (should_fire cfg rule_name severity now (record_fire rule_name t file)).1 = true) := by
  have hl : (load_state (record_fire rule_name t file)).last_alerts.lookup rule_name
      = some (StoredTs.valid t) := by
    simp [record_fire, save_state, load_state, lookup_dict_set_self]
  constructor
  · simp only [should_fire, hl, fromisoformat]
    simp only [decide_eq_false_iff_not, ge_iff_le, not_le]
    linarith
  · intro h2
    simp only [should_fire, hl, fromisoformat]
    simp only [decide_eq_true_eq, ge_iff_le]
    linarith

unseal Rat.add Rat.mul Rat.sub Rat.inv Rat.ofScientific in
/-- C2 witness: concrete instantiation (critical severity, default config,
cooldown 45 minutes = 2700 seconds, fire at t = 1000, query at t and at
t + 2701). -/
theorem record_fire_then_should_fire_witness :
    (should_fire load_config "X" Severity.critical 1000
      (record_fire "X" 1000 StateFile.absent)).1 = false ∧
    (should_fire load_config "X" Severity.critical 3701
      (record_fire "X" 1000 StateFile.absent)).1 = true := by
  have h := record_fire_then_should_fire load_config "X" Severity.critical 1000 3701
    StateFile.absent (by decide)
  exact ⟨h.1, h.2 (by decide)⟩

/- ===== C6: fail-open cooldown store ===== -/

/-- C6: the cooldown store fails open toward firing: a malformed stored
timestamp for a rule makes should_fire return true, and a corrupted or
unreadable state file loads as the empty store so should_fire returns true for
every rule name; in both cases should_fire returns normally (it is a total
function into Bool). -/
theorem should_fire_fail_open (cfg : Config) (rule_name : String)
    (severity : Severity) (now : ℚ) :
    (∀ (s : StorageState) (junk : String),
      s.last_alerts.lookup rule_name = some (StoredTs.malformed junk) →
      (should_fire cfg rule_name severity now (StateFile.good s)).1 = true) ∧
    load_state StateFile.corrupt = ⟨[], 1⟩ ∧
    (should_fire cfg rule_name severity now StateFile.corrupt).1 = true := by
  refine ⟨?_, rfl, ?_⟩
  · intro s junk h
    simp [should_fire, load_state, h, fromisoformat]
  · simp [should_fire, load_state, List.lookup]

/-- C6 witness: a store whose entry for rule "X" is unparsable text, and a
corrupt state file. -/
theorem should_fire_fail_open_witness :
    (should_fire load_config "X" Severity.high 500
      (StateFile.good ⟨[("X", StoredTs.malformed "not-a-timestamp")], 1⟩)).1 = true ∧
    (should_fire load_config "X" Severity.high 500 StateFile.corrupt).1 = true := by
  have h := should_fire_fail_open load_config "X" Severity.high 500
  exact ⟨h.1 ⟨[("X", StoredTs.malformed "not-a-timestamp")], 1⟩ "not-a-timestamp" (by decide),
    h.2.2⟩

/- ===== C10: frame properties of record_fire and should_fire ===== -/

/-- C10: record_fire for rule a leaves every other rule b's last-fire entry
and the schema version unchanged (as observed through load_state, for any
starting file), and should_fire leaves the persisted file untouched. -/
theorem record_fire_frame (file : StateFile) (a b : String) (now : ℚ) (hab : a ≠ b) :
    (load_state (record_fire a now file)).last_alerts.lookup b
      = (load_state file).last_alerts.lookup b ∧
    (load_state (record_fire a now file)).version = (load_state file).version ∧
    (∀ (cfg : Config) (severity : Severity) (t : ℚ),
      (should_fire cfg b severity t file).2 = file) := by
  refine ⟨?_, ?_, ?_⟩
  · simp [record_fire, save_state, load_state]
    exact lookup_dict_set_ne _ _ _ _ (Ne.symm hab)
  · simp [record_fire, save_state, load_state]
  · intro cfg severity t
    simp only [should_fire]
    cases h : (load_state file).last_alerts.lookup b with
    | none => rfl
    | some ts => cases ts <;> rfl

/-- C10 witness: a two-rule store; recording a fire for "A" leaves "B"'s
entry and the version unchanged, and should_fire returns the file unchanged. -/
theorem record_fire_frame_witness :
    (load_state (record_fire "A" 777
        (StateFile.good ⟨[("A", StoredTs.valid 1), ("B", StoredTs.valid 2)], 3⟩))).last_alerts.lookup "B"
      = (load_state (StateFile.good ⟨[("A", StoredTs.valid 1), ("B", StoredTs.valid 2)], 3⟩)).last_alerts.lookup "B" ∧
    (load_state (record_fire "A" 777
        (StateFile.good ⟨[("A", StoredTs.valid 1), ("B", StoredTs.valid 2)], 3⟩))).version
      = (load_state (StateFile.good ⟨[("A", StoredTs.valid 1), ("B", StoredTs.valid 2)], 3⟩)).version ∧
    (∀ (cfg : Config) (severity : Severity) (t : ℚ),
      (should_fire cfg "B" severity t
        (StateFile.good ⟨[("A", StoredTs.valid 1), ("B", StoredTs.valid 2)], 3⟩)).2
      = StateFile.good ⟨[("A", StoredTs.valid 1), ("B", StoredTs.valid 2)], 3⟩) :=
  record_fire_frame (StateFile.good ⟨[("A", StoredTs.valid 1), ("B", StoredTs.valid 2)], 3⟩)
    "A" "B" 777 (by decide)

/- ===== C1: evaluator isolates a raising predicate ===== -/

/-- C1: if one rule's predicate raises, evaluate_rules catches it, treats the
rule as non-triggering, and still evaluates every remaining rule: the result
is exactly the result of the same pass without the raising rule, and
evaluate_rules itself returns a list (never propagates the exception). -/
theorem evaluate_rules_isolates_fault (pre post : List Rule) (r : Rule)
    (snapshot : MarketSnapshot) (e : String) (h : r.check snapshot = Except.error e) :
    evaluate_rules (pre ++ r :: post) snapshot = evaluate_rules (pre ++ post) snapshot := by
  induction pre with
  | nil => simp [evaluate_rules, h]
  | cons hd tl ih =>
    simp only [List.cons_append]
    cases hc : hd.check snapshot with
    | error e' => simp [evaluate_rules, hc, ih]
    | ok p =>
      obtain ⟨b, ctx⟩ := p
      cases b <;> simp [evaluate_rules, hc, ih]

/-- A contributed rule whose predicate raises unconditionally. -/
def raising_rule : Rule :=
  ⟨"ALWAYS_RAISES", Severity.low, "Test", "a predicate with an unhandled fault",
   fun _ => Except.error ("boom"), "never rendered"⟩

/-- The empty market snapshot. -/
def empty_snapshot : MarketSnapshot := ⟨0, []⟩

/-- C1 witness: inserting the raising rule into the middle of two drawdown
rules changes nothing about the pass. -/
theorem evaluate_rules_isolates_fault_witness :
    evaluate_rules ([drawdown_rule (-2)] ++ raising_rule :: [drawdown_rule (-4)])
      empty_snapshot
      = evaluate_rules ([drawdown_rule (-2)] ++ [drawdown_rule (-4)]) empty_snapshot :=
  evaluate_rules_isolates_fault [drawdown_rule (-2)] [drawdown_rule (-4)] raising_rule
    empty_snapshot "boom" rfl

/- ===== C9: drawdown-from-high indicator (corrected) ===== -/

unseal Rat.add Rat.mul Rat.sub Rat.inv Rat.ofScientific in
/-- C9 counterexample: the claim "current ≤ high implies drawdown ≤ 0" fails
for a negative 52-week high: current = -10 is at or below high = -5, the high
is present and nonzero, yet get_drawdown_from_high returns +100. -/
theorem get_drawdown_from_high_counterexample :
    get_drawdown_from_high ⟨"X", -10, -10, 0, none, some (-5), none, none, "X"⟩
      = some 100 ∧
    ((-10 : ℚ) ≤ -5) ∧ ((0 : ℚ) < 100) := by
  refine ⟨?_, by decide, by decide⟩
  simp only [get_drawdown_from_high]
  norm_num

/-- C9 amended: get_drawdown_from_high returns none exactly when the 52-week
high is absent or zero, otherwise (current − high)/high × 100; and the result
is ≤ 0 whenever current ≤ high, provided the high is positive (for a negative
high the sign flips, see the counterexample). -/
theorem get_drawdown_from_high_spec (m : SymbolData) :
    (get_drawdown_from_high m = none ↔ (m.high_52w = none ∨ m.high_52w = some 0)) ∧
    (∀ h : ℚ, m.high_52w = some h → h ≠ 0 →
      get_drawdown_from_high m = some ((m.current_price - h) / h * 100)) ∧
    (∀ h : ℚ, m.high_52w = some h → 0 < h → m.current_price ≤ h →
      ∀ d : ℚ, get_drawdown_from_high m = some d → d ≤ 0) := by
  refine ⟨?_, ?_, ?_⟩
  · cases hh : m.high_52w with
    | none => simp [get_drawdown_from_high, hh]
    | some h =>
      by_cases h0 : h = 0
      · simp [get_drawdown_from_high, hh, h0]
      · simp [get_drawdown_from_high, hh, h0]
  · intro h hh h0
    simp [get_drawdown_from_high, hh, h0]
  · intro h hh hpos hle d hd
    simp only [get_drawdown_from_high, hh] at hd
    rw [if_neg (by exact ne_of_gt hpos)] at hd
    obtain rfl : ((m.current_price - h) / h) * 100 = d := Option.some.injEq _ _ ▸ hd
    have h1 : m.current_price - h ≤ 0 := by linarith
    have h2 : (m.current_price - h) / h ≤ 0 :=
      div_nonpos_of_nonpos_of_nonneg h1 (le_of_lt hpos)
    nlinarith

/-- C9 amended witness: SPY at 90 with a 52-week high of 100 gives drawdown
(90 − 100)/100 × 100 = −10 ≤ 0. -/
theorem get_drawdown_from_high_spec_witness :
    get_drawdown_from_high ⟨"SPY", 90, 91, 0, none, some 100, none, none, "spy"⟩
      = some (((90 : ℚ) - 100) / 100 * 100) ∧
    (((90 : ℚ) - 100) / 100 * 100 ≤ 0) := by
  have h2 := (get_drawdown_from_high_spec
    ⟨"SPY", 90, 91, 0, none, some 100, none, none, "spy"⟩).2.1 100 rfl (by decide)
  have h3 := (get_drawdown_from_high_spec
    ⟨"SPY", 90, 91, 0, none, some 100, none, none, "spy"⟩).2.2 100 rfl (by decide)
    (by decide) _ h2
  exact ⟨h2, h3⟩

/- ===== C3: drawdown rule family is monotone and non-exclusive ===== -/

theorem mem_triggered_names (rules : List Rule) (snapshot : MarketSnapshot) (r : Rule)
    (ctx : Ctx) (hr : r ∈ rules) (hc : r.check snapshot = Except.ok (true, ctx)) :
    r.name ∈ triggered_names rules snapshot := by
  induction rules with
  | nil => cases hr
  | cons hd tl ih =>
    rcases List.mem_cons.mp hr with rfl | hmem
    · simp [triggered_names, evaluate_rules, hc]
    · cases hc2 : hd.check snapshot with
      | error e =>
        simpa [triggered_names, evaluate_rules, hc2] using ih hmem
      | ok p =>
        obtain ⟨b, ctx2⟩ := p
        cases b
        · simpa [triggered_names, evaluate_rules, hc2] using ih hmem
        · simp [triggered_names, evaluate_rules, hc2]
          exact Or.inr (by simpa [triggered_names] using ih hmem)

theorem not_mem_triggered_names (rules : List Rule) (snapshot : MarketSnapshot) (n : String)
    (h : ∀ r ∈ rules, r.name = n → ∀ ctx : Ctx, r.check snapshot ≠ Except.ok (true, ctx)) :
    n ∉ triggered_names rules snapshot := by
  induction rules with
  | nil => simp [triggered_names, evaluate_rules]
  | cons hd tl ih =>
    have htl := ih (fun r hr => h r (List.mem_cons_of_mem _ hr))
    cases hc : hd.check snapshot with
    | error e => simpa [triggered_names, evaluate_rules, hc] using htl
    | ok p =>
      obtain ⟨b, ctx⟩ := p
      cases b
      · simpa [triggered_names, evaluate_rules, hc] using htl
      · have hname : hd.name ≠ n := fun hn => h hd (List.mem_cons_self _ _) hn ctx hc
        intro hmem
        simp only [triggered_names, evaluate_rules, hc, if_true, List.map_cons,
          List.mem_cons] at hmem
        rcases hmem with h1 | h2
        · exact hname h1.symm
        · exact htl (by simpa [triggered_names] using h2)

theorem drawdown_rule_triggered (cfg : Config) (snapshot : MarketSnapshot)
    (spy : SymbolData) (d : ℚ) (lv : Int)
    (hspy : snapshot.get ("SPY") = some spy)
    (hd : get_drawdown_from_high spy = some d)
    (hlv : lv ∈ DRAWDOWN_LEVELS) (hle : d ≤ (lv : ℚ)) :
    (drawdown_rule lv).name ∈ triggered_names (RULES cfg) snapshot := by
  apply mem_triggered_names (RULES cfg) snapshot (drawdown_rule lv) ⟨some d, some ("SPY"), none⟩
  · simp only [RULES, List.mem_append]
    exact Or.inr (List.mem_map_of_mem _ hlv)
  · simp [drawdown_rule, drawdown_check, hspy, hd, hle]

/-- C3: for every snapshot in which SPY's drawdown from its 52-week high is at
or beyond −10%, the 2/4/6/10-percent drawdown rules are all simultaneously in
the triggered set (non-exclusive bands), and at a drawdown of exactly −10.0%
the −15% and −20% variants are not triggered. -/
theorem drawdown_rules_monotone (cfg : Config) (snapshot : MarketSnapshot)
    (spy : SymbolData) (d : ℚ)
    (hspy : snapshot.get ("SPY") = some spy)
    (hd : get_drawdown_from_high spy = some d) :
    (d ≤ -10 →
      "SPY_DRAWDOWN_2PCT" ∈ triggered_names (RULES cfg) snapshot ∧
      "SPY_DRAWDOWN_4PCT" ∈ triggered_names (RULES cfg) snapshot ∧
      "SPY_DRAWDOWN_6PCT" ∈ triggered_names (RULES cfg) snapshot ∧
      "SPY_DRAWDOWN_10PCT" ∈ triggered_names (RULES cfg) snapshot) ∧
    (d = -10 →
      "SPY_DRAWDOWN_15PCT" ∉ triggered_names (RULES cfg) snapshot ∧
      "SPY_DRAWDOWN_20PCT" ∉ triggered_names (RULES cfg) snapshot) := by
  constructor
  · intro h10
    refine ⟨?_, ?_, ?_, ?_⟩
    · have := drawdown_rule_triggered cfg snapshot spy d (-2) hspy hd (by decide)
        (by push_cast; linarith)
      simpa [drawdown_rule] using this
    · have := drawdown_rule_triggered cfg snapshot spy d (-4) hspy hd (by decide)
        (by push_cast; linarith)
      simpa [drawdown_rule] using this
    · have := drawdown_rule_triggered cfg snapshot spy d (-6) hspy hd (by decide)
        (by push_cast; linarith)
      simpa [drawdown_rule] using this
    · have := drawdown_rule_triggered cfg snapshot spy d (-10) hspy hd (by decide)
        (by push_cast; linarith)
      simpa [drawdown_rule] using this
  · intro h10
    subst h10
    constructor
    · apply not_mem_triggered_names
      intro r hr hname ctx hc
      simp only [RULES, DRAWDOWN_LEVELS, List.map_cons, List.map_nil, List.mem_append,
        List.mem_cons, List.not_mem_nil, or_false] at hr
      rcases hr with ((rfl|rfl|rfl|rfl|rfl|rfl|rfl|rfl|rfl|rfl|rfl|rfl)|(rfl|rfl|rfl|rfl|rfl|rfl))
      all_goals first
        | exact absurd hname (by simp)
        | exact absurd hname (by decide)
        | (simp only [drawdown_rule, drawdown_check, hspy, hd] at hc
           rw [if_neg (by norm_num)] at hc
           exact absurd hc (by simp))
    · apply not_mem_triggered_names
      intro r hr hname ctx hc
      simp only [RULES, DRAWDOWN_LEVELS, List.map_cons, List.map_nil, List.mem_append,
        List.mem_cons, List.not_mem_nil, or_false] at hr
      rcases hr with ((rfl|rfl|rfl|rfl|rfl|rfl|rfl|rfl|rfl|rfl|rfl|rfl)|(rfl|rfl|rfl|rfl|rfl|rfl))
      all_goals first
        | exact absurd hname (by simp)
        | exact absurd hname (by decide)
        | (simp only [drawdown_rule, drawdown_check, hspy, hd] at hc
           rw [if_neg (by norm_num)] at hc
           exact absurd hc (by simp))

/-- The end-to-end snapshot of the spec: SPY at 90 against a 52-week high of
100, i.e. a drawdown of exactly −10.0%; all other instruments absent. -/
def spy_snapshot_10 : MarketSnapshot :=
  ⟨0, [("SPY", ⟨"SPY", 90, 91, -1, none, some 100, none, none, "S&P 500 ETF"⟩)]⟩

/-- C3 witness: at the −10.0% drawdown snapshot, the 2/4/6/10 rules are
triggered and the 15/20 rules are not. -/
theorem drawdown_rules_monotone_witness :
    ("SPY_DRAWDOWN_2PCT" ∈ triggered_names (RULES load_config) spy_snapshot_10 ∧
     "SPY_DRAWDOWN_4PCT" ∈ triggered_names (RULES load_config) spy_snapshot_10 ∧
     "SPY_DRAWDOWN_6PCT" ∈ triggered_names (RULES load_config) spy_snapshot_10 ∧
     "SPY_DRAWDOWN_10PCT" ∈ triggered_names (RULES load_config) spy_snapshot_10) ∧
    ("SPY_DRAWDOWN_15PCT" ∉ triggered_names (RULES load_config) spy_snapshot_10 ∧
     "SPY_DRAWDOWN_20PCT" ∉ triggered_names (RULES load_config) spy_snapshot_10) := by
  have h := drawdown_rules_monotone load_config spy_snapshot_10
    ⟨"SPY", 90, 91, -1, none, some 100, none, none, "S&P 500 ETF"⟩
    (((90 : ℚ) - 100) / 100 * 100) rfl
    (by simp [get_drawdown_from_high])
  exact ⟨h.1 (by norm_num), h.2 (by norm_num)⟩

/- ===== C5: HYG-only end-to-end snapshot (corrected) ===== -/

/-- The end-to-end snapshot of the spec: only HYG present, intraday change
−2.0% (current 78.4 from a previous close of 80), no 5-day history. -/
def hyg_snapshot : MarketSnapshot :=
  ⟨0, [("HYG", ⟨"HYG", 78.4, 80, -2.0, none, none, none, none, "High Yield Corp Bond ETF"⟩)]⟩

unseal Rat.add Rat.mul Rat.sub Rat.inv Rat.ofScientific in
/-- C5 counterexample: on the HYG-only snapshot with intraday −2.0% the
regime classifier returns NORMAL with no triggers — not DEFENSIVE with a
"Credit stress" reason — because its credit-stress trigger keys on the 5-day
change (≤ −3.0%), which is absent here. -/
theorem hyg_snapshot_regime_counterexample :
    (assess_regime load_regime_thresholds none hyg_snapshot).regime = Regime.NORMAL ∧
    (assess_regime load_regime_thresholds none hyg_snapshot).triggers = [] := by
  constructor <;> rfl

unseal Rat.add Rat.mul Rat.sub Rat.inv Rat.ofScientific in
/-- C5 amended: on the HYG-only snapshot with intraday change −2.0%, the
triggered set is exactly \x7bCREDIT_STRESS_INTRADAY\x7d, and assess_regime returns
NORMAL with zero triggers (the regime credit-stress trigger reads the 5-day
change, not the intraday change). -/
theorem hyg_snapshot_end_to_end :
    triggered_names (RULES load_config) hyg_snapshot = ["CREDIT_STRESS_INTRADAY"] ∧
    (assess_regime load_regime_thresholds none hyg_snapshot).regime = Regime.NORMAL ∧
    (assess_regime load_regime_thresholds none hyg_snapshot).triggers = [] ∧
    (assess_regime load_regime_thresholds none hyg_snapshot).summary
      = "NORMAL regime - no significant stress signals detected" := by
  refine ⟨by decide, rfl, rfl, rfl⟩

/- ===== C8: threshold configuration sourcing (corrected) ===== -/

/-- A configuration overriding every scalar rules key with an extreme value
(each one strict enough that no config-sourced predicate could trigger on the
stress snapshot below). -/
def override_config : Config :=
  ⟨[("credit_stress_intraday", -1000),
    ("credit_stress_5d", -1000),
    ("liquidity_stress_intraday", 1000),
    ("liquidity_stress_5d", 1000),
    ("volatility_level", 1000000),
    ("volatility_spike", 1000000),
    ("growth_weakness_threshold", -1000),
    ("smallcap_weakness_threshold", -1000),
    ("defensive_hedge_bid", 1000000),
    ("rate_shock_bps", 1000000)],
   [("critical", 45), ("high", 90), ("medium", 240), ("low", 1440)]⟩

/-- SPY −3.0% with TLT −0.5% on the same day. -/
def stress_snapshot : MarketSnapshot :=
  ⟨0, [("SPY", ⟨"SPY", 0, 0, -3.0, none, none, none, none, "S&P 500 ETF"⟩),
       ("TLT", ⟨"TLT", 0, 0, -0.5, none, none, none, none, "20+ Year Treasury ETF"⟩)]⟩

unseal Rat.add Rat.mul Rat.sub Rat.inv Rat.ofScientific in
/-- C8 counterexample: COMBINED_STRESS's comparison threshold is not read
from the configuration object: with every configuration key overridden to an
extreme value the predicate still triggers at SPY −3.0% (its −2.5 cut-off is
a hardcoded constant), exactly as under the default configuration. -/
theorem check_combined_stress_not_configurable :
    (check_combined_stress override_config stress_snapshot).1 = true ∧
    (check_combined_stress load_config stress_snapshot).1 = true := by
  constructor <;> rfl

/-- One-symbol snapshot builder. -/
def one_symbol_snapshot (sym : String) (d : SymbolData) : MarketSnapshot := ⟨0, [(sym, d)]⟩

/-- Two-symbol snapshot builder. -/
def two_symbol_snapshot (s1 : String) (d1 : SymbolData) (s2 : String) (d2 : SymbolData) :
    MarketSnapshot := ⟨0, [(s1, d1), (s2, d2)]⟩

/-- Metrics record carrying only an intraday change. -/
def intraday_only (sym : String) (x : ℚ) : SymbolData := ⟨sym, 0, 0, x, none, none, none, none, sym⟩

/-- Metrics record carrying only a 5-day change. -/
def with_5d (sym : String) (x : ℚ) : SymbolData := ⟨sym, 0, 0, 0, some x, none, none, none, sym⟩

/-- Metrics record carrying only a price level. -/
def level_only (sym : String) (x : ℚ) : SymbolData := ⟨sym, x, 0, 0, none, none, none, none, sym⟩

/-- A configuration with a single rules key. -/
def key_config (k : String) (t : ℚ) : Config := ⟨[(k, t)], []⟩

/-- C8 amended: nine of the built-in predicates read their comparison
threshold from the configuration object (overriding the key moves the trigger
point to exactly the configured value), but COMBINED_STRESS (−2.5),
RISK_APPETITE_POSITIVE (+1.5) and BTC_MAJOR_MOVE (8.0) use hardcoded
constants that no configuration can change, and the drawdown family's levels
come from the module constant DRAWDOWN_LEVELS rather than the configured
'spy_drawdown_levels' list. -/
theorem rule_threshold_config_sourcing :
    (∀ t x : ℚ, (check_credit_stress_intraday (key_config ("credit_stress_intraday") t)
      (one_symbol_snapshot ("HYG") (intraday_only ("HYG") x))).1 = decide (x ≤ t)) ∧
    (∀ t x : ℚ, (check_credit_stress_5d (key_config ("credit_stress_5d") t)
      (one_symbol_snapshot ("HYG") (with_5d ("HYG") x))).1 = decide (x ≤ t)) ∧
    (∀ t x : ℚ, (check_liquidity_stress_intraday (key_config ("liquidity_stress_intraday") t)
      (one_symbol_snapshot ("DX-Y.NYB") (intraday_only ("DXY") x))).1 = decide (x ≥ t)) ∧
    (∀ t x : ℚ, (check_liquidity_stress_5d (key_config ("liquidity_stress_5d") t)
      (one_symbol_snapshot ("DX-Y.NYB") (with_5d ("DXY") x))).1 = decide (x ≥ t)) ∧
    (∀ t x : ℚ, (check_volatility_elevated (key_config ("volatility_level") t)
      (one_symbol_snapshot ("^VIX") (level_only ("VIX") x))).1 = decide (x ≥ t)) ∧
    (∀ t x : ℚ, (check_volatility_spike (key_config ("volatility_spike") t)
      (one_symbol_snapshot ("^VIX") (intraday_only ("VIX") x))).1 = decide (x ≥ t)) ∧
    (∀ t a b : ℚ, (check_growth_weakness (key_config ("growth_weakness_threshold") t)
      (two_symbol_snapshot ("QQQ") (intraday_only ("QQQ") a)
        ("SPY") (intraday_only ("SPY") b))).1 = decide (a - b ≤ t)) ∧
    (∀ t a b : ℚ, (check_smallcap_weakness (key_config ("smallcap_weakness_threshold") t)
      (two_symbol_snapshot ("IWM") (intraday_only ("IWM") a)
        ("SPY") (intraday_only ("SPY") b))).1 = decide (a - b ≤ t)) ∧
    (∀ t a b : ℚ, (check_defensive_hedge_bid (key_config ("defensive_hedge_bid") t)
      (two_symbol_snapshot ("GLD") (intraday_only ("GLD") a)
        ("TLT") (intraday_only ("TLT") b))).1 = decide (a ≥ t ∧ b ≥ t)) ∧
    (∀ (cfg cfg' : Config) (s : MarketSnapshot),
      check_combined_stress cfg s = check_combined_stress cfg' s) ∧
    (∀ (cfg cfg' : Config) (s : MarketSnapshot),
      check_risk_appetite_positive cfg s = check_risk_appetite_positive cfg' s) ∧
    (∀ (cfg cfg' : Config) (s : MarketSnapshot),
      check_btc_major_move cfg s = check_btc_major_move cfg' s) ∧
    (∀ cfg : Config, (RULES cfg).drop 12 = DRAWDOWN_LEVELS.map drawdown_rule) := by
  refine ⟨?_, ?_, ?_, ?_, ?_, ?_, ?_, ?_, ?_,
    fun cfg cfg' s => rfl, fun cfg cfg' s => rfl, fun cfg cfg' s => rfl, fun cfg => rfl⟩
  · intro t x
    by_cases h : x ≤ t <;>
      simp [check_credit_stress_intraday, one_symbol_snapshot, MarketSnapshot.get,
        List.lookup, get_threshold, key_config, intraday_only, h]
  · intro t x
    by_cases h : x ≤ t <;>
      simp [check_credit_stress_5d, one_symbol_snapshot, MarketSnapshot.get,
        List.lookup, get_threshold, key_config, with_5d, h]
  · intro t x
    by_cases h : x ≥ t <;>
      simp [check_liquidity_stress_intraday, one_symbol_snapshot, MarketSnapshot.get,
        List.lookup, get_threshold, key_config, intraday_only, h]
  · intro t x
    by_cases h : x ≥ t <;>
      simp [check_liquidity_stress_5d, one_symbol_snapshot, MarketSnapshot.get,
        List.lookup, get_threshold, key_config, with_5d, h]
  · intro t x
    by_cases h : x ≥ t <;>
      simp [check_volatility_elevated, one_symbol_snapshot, MarketSnapshot.get,
        List.lookup, get_threshold, key_config, level_only, h]
  · intro t x
    by_cases h : x ≥ t <;>
      simp [check_volatility_spike, one_symbol_snapshot, MarketSnapshot.get,
        List.lookup, get_threshold, key_config, intraday_only, h]
  · intro t a b
    by_cases h : a - b ≤ t <;>
      simp [check_growth_weakness, two_symbol_snapshot, MarketSnapshot.get,
        List.lookup, get_threshold, key_config, intraday_only, h]
  · intro t a b
    by_cases h : a - b ≤ t <;>
      simp [check_smallcap_weakness, two_symbol_snapshot, MarketSnapshot.get,
        List.lookup, get_threshold, key_config, intraday_only, h]
  · intro t a b
    by_cases h : a ≥ t ∧ b ≥ t <;>
      simp [check_defensive_hedge_bid, two_symbol_snapshot, MarketSnapshot.get,
        List.lookup, get_threshold, key_config, intraday_only, h]

/- ===== C4: regime classification (DEFENSIVE iff any trigger) ===== -/

/-- The credit-stress condition of assess_regime, as a Boolean. -/
def regime_credit_trigger (thresholds : List (String × ℚ)) (snap : MarketSnapshot) : Bool :=
  match snap.get ("HYG") with
  | none => false
  | some hyg =>
    match hyg.change_5d_pct with
    | none => false
    | some c5 => decide (c5 ≤ (thresholds.lookup ("hyg_5d_threshold")).getD (-3.0))

/-- The liquidity-tightening condition of assess_regime, as a Boolean. -/
def regime_dxy_trigger (thresholds : List (String × ℚ)) (snap : MarketSnapshot) : Bool :=
  match snap.get ("DX-Y.NYB") with
  | none => false
  | some dxy =>
    match dxy.change_5d_pct with
    | none => false
    | some c5 => decide (c5 ≥ (thresholds.lookup ("dxy_5d_threshold")).getD (2.0))

/-- The elevated-volatility condition of assess_regime, as a Boolean. -/
def regime_vix_trigger (thresholds : List (String × ℚ)) (vix_prev : Option ℚ)
    (snap : MarketSnapshot) : Bool :=
  match snap.get ("^VIX") with
  | none => false
  | some vix =>
    if vix.current_price ≥ (thresholds.lookup ("vix_level_threshold")).getD (30) then
      match vix_prev with
      | some p => decide (vix.current_price > p)
      | none => true
    else false

/-- The combined SPY+TLT stress condition of assess_regime, as a Boolean. -/
def regime_combined_trigger (thresholds : List (String × ℚ)) (snap : MarketSnapshot) : Bool :=
  match snap.get ("SPY"), snap.get ("TLT") with
  | some spy, some tlt =>
    decide (spy.intraday_change_pct ≤
        (thresholds.lookup ("spy_tlt_combined_threshold")).getD (-2.5) ∧
      tlt.intraday_change_pct < 0)
  | _, _ => false

/-- The structural-weakness condition of assess_regime, as a Boolean. -/
def regime_structural_trigger (snap : MarketSnapshot) : Bool :=
  match snap.get ("SPY") with
  | none => false
  | some spy =>
    if is_below_200dma spy then
      match snap.get ("^TNX") with
      | none => false
      | some tnx => decide (tnx.intraday_change_pct > 0)
    else false

theorem regime_credit_part_spec (th : List (String × ℚ)) (snap : MarketSnapshot) :
    (regime_credit_trigger th snap = false ∧ regime_credit_part th snap = []) ∨
    (regime_credit_trigger th snap = true ∧ ∃ m, regime_credit_part th snap = [m]) := by
  unfold regime_credit_trigger regime_credit_part
  cases snap.get ("HYG") with
  | none => exact Or.inl ⟨rfl, rfl⟩
  | some hyg =>
    dsimp only
    cases hyg.change_5d_pct with
    | none => exact Or.inl ⟨rfl, rfl⟩
    | some c5 =>
      dsimp only
      by_cases h : c5 ≤ (th.lookup ("hyg_5d_threshold")).getD (-3.0)
      · exact Or.inr ⟨by simp [h],
          "Credit stress: HYG 5D return " ++ fmt1 c5 ++ "%", by simp [h]⟩
      · exact Or.inl ⟨by simp [h], by simp [h]⟩

theorem regime_dxy_part_spec (th : List (String × ℚ)) (snap : MarketSnapshot) :
    (regime_dxy_trigger th snap = false ∧ regime_dxy_part th snap = []) ∨
    (regime_dxy_trigger th snap = true ∧ ∃ m, regime_dxy_part th snap = [m]) := by
  unfold regime_dxy_trigger regime_dxy_part
  cases snap.get ("DX-Y.NYB") with
  | none => exact Or.inl ⟨rfl, rfl⟩
  | some dxy =>
    dsimp only
    cases dxy.change_5d_pct with
    | none => exact Or.inl ⟨rfl, rfl⟩
    | some c5 =>
      dsimp only
      by_cases h : c5 ≥ (th.lookup ("dxy_5d_threshold")).getD (2.0)
      · exact Or.inr ⟨by simp [h],
          "Liquidity tightening: DXY 5D return +" ++ fmt1 c5 ++ "%", by simp [h]⟩
      · exact Or.inl ⟨by simp [h], by simp [h]⟩

theorem regime_vix_part_spec (th : List (String × ℚ)) (prev : Option ℚ)
    (snap : MarketSnapshot) :
    (regime_vix_trigger th prev snap = false ∧ regime_vix_part th prev snap = []) ∨
    (regime_vix_trigger th prev snap = true ∧ ∃ m, regime_vix_part th prev snap = [m]) := by
  unfold regime_vix_trigger regime_vix_part
  cases snap.get ("^VIX") with
  | none => exact Or.inl ⟨rfl, rfl⟩
  | some vix =>
    dsimp only
    by_cases h : vix.current_price ≥ (th.lookup ("vix_level_threshold")).getD (30)
    · cases prev with
      | none => exact Or.inr ⟨by simp [h],
          "Elevated volatility: VIX " ++ fmt1 vix.current_price, by simp [h]⟩
      | some p =>
        by_cases h2 : vix.current_price > p
        · exact Or.inr ⟨by simp [h, h2],
            "Elevated and rising volatility: VIX " ++ fmt1 vix.current_price ++
              " (prev: " ++ fmt1 p ++ ")", by simp [h, h2]⟩
        · exact Or.inl ⟨by simp [h, h2], by simp [h, h2]⟩
    · exact Or.inl ⟨by simp [h], by simp [h]⟩

theorem regime_combined_part_spec (th : List (String × ℚ)) (snap : MarketSnapshot) :
    (regime_combined_trigger th snap = false ∧ regime_combined_part th snap = []) ∨
    (regime_combined_trigger th snap = true ∧ ∃ m, regime_combined_part th snap = [m]) := by
  unfold regime_combined_trigger regime_combined_part
  cases snap.get ("SPY") with
  | none => exact Or.inl ⟨rfl, rfl⟩
  | some spy =>
    cases snap.get ("TLT") with
    | none => exact Or.inl ⟨rfl, rfl⟩
    | some tlt =>
      dsimp only
      by_cases h : spy.intraday_change_pct ≤
          (th.lookup ("spy_tlt_combined_threshold")).getD (-2.5) ∧ tlt.intraday_change_pct < 0
      · exact Or.inr ⟨by simp [h],
          "Combined stress: SPY " ++ fmt1 spy.intraday_change_pct ++
            "% and TLT " ++ fmt1 tlt.intraday_change_pct ++ "%", by simp [h]⟩
      · exact Or.inl ⟨by simp [h], by simp [h]⟩

theorem regime_structural_part_spec (snap : MarketSnapshot) :
    (regime_structural_trigger snap = false ∧ regime_structural_part snap = []) ∨
    (regime_structural_trigger snap = true ∧ ∃ m, regime_structural_part snap = [m]) := by
  unfold regime_structural_trigger regime_structural_part
  cases snap.get ("SPY") with
  | none => exact Or.inl ⟨rfl, rfl⟩
  | some spy =>
    dsimp only
    by_cases h : is_below_200dma spy
    · simp only [h, if_true]
      cases snap.get ("^TNX") with
      | none => exact Or.inl ⟨rfl, rfl⟩
      | some tnx =>
        dsimp only
        by_cases h2 : tnx.intraday_change_pct > 0
        · exact Or.inr ⟨by simp [h2],
            "Structural weakness: SPY below 200dma with rates rising", by simp [h2]⟩
        · exact Or.inl ⟨by simp [h2], by simp [h2]⟩
    · exact Or.inl ⟨by simp [h], by simp [h]⟩

/-- C4: assess_regime returns DEFENSIVE exactly when at least one of its five
trigger conditions holds and NORMAL exactly when none holds; all applicable
triggers are collected (the trigger list's length equals the number of
conditions that hold, no short-circuiting), and the one-line summary states
the trigger count in the DEFENSIVE case. -/
theorem assess_regime_spec (th : List (String × ℚ)) (prev : Option ℚ)
    (snap : MarketSnapshot) :
    ((assess_regime th prev snap).regime = Regime.DEFENSIVE ↔
      (regime_credit_trigger th snap || regime_dxy_trigger th snap ||
       regime_vix_trigger th prev snap || regime_combined_trigger th snap ||
       regime_structural_trigger snap) = true) ∧
    ((assess_regime th prev snap).regime = Regime.NORMAL ↔
      (regime_credit_trigger th snap || regime_dxy_trigger th snap ||
       regime_vix_trigger th prev snap || regime_combined_trigger th snap ||
       regime_structural_trigger snap) = false) ∧
    (assess_regime th prev snap).triggers.length =
      (regime_credit_trigger th snap).toNat + (regime_dxy_trigger th snap).toNat +
      (regime_vix_trigger th prev snap).toNat + (regime_combined_trigger th snap).toNat +
      (regime_structural_trigger snap).toNat ∧
    (assess_regime th prev snap).summary =
      (if (regime_credit_trigger th snap || regime_dxy_trigger th snap ||
           regime_vix_trigger th prev snap || regime_combined_trigger th snap ||
           regime_structural_trigger snap) = true
       then "DEFENSIVE regime - " ++ toString (assess_regime th prev snap).triggers.length ++
         " warning signal(s) active"
       else "NORMAL regime - no significant stress signals detected") := by
  rcases regime_credit_part_spec th snap with ⟨hb1, hp1⟩ | ⟨hb1, m1, hp1⟩ <;>
  rcases regime_dxy_part_spec th snap with ⟨hb2, hp2⟩ | ⟨hb2, m2, hp2⟩ <;>
  rcases regime_vix_part_spec th prev snap with ⟨hb3, hp3⟩ | ⟨hb3, m3, hp3⟩ <;>
  rcases regime_combined_part_spec th snap with ⟨hb4, hp4⟩ | ⟨hb4, m4, hp4⟩ <;>
  rcases regime_structural_part_spec snap with ⟨hb5, hp5⟩ | ⟨hb5, m5, hp5⟩ <;>
    simp [assess_regime, hb1, hb2, hb3, hb4, hb5, hp1, hp2, hp3, hp4, hp5]

/- ===== C7: the volatility trigger of the regime classifier ===== -/

/-- regime.py line 83: the elevated-and-rising volatility trigger message. -/
def vix_rising_msg (c p : ℚ) : String :=
  "Elevated and rising volatility: VIX " ++ fmt1 c ++ " (prev: " ++ fmt1 p ++ ")"

/-- regime.py line 85: the degraded elevated-volatility trigger message used
when the previous close is unavailable. -/
def vix_elevated_msg (c : ℚ) : String :=
  "Elevated volatility: VIX " ++ fmt1 c

theorem vix_rising_msg_ne_credit (c p c' : ℚ) :
    vix_rising_msg c p ≠ "Credit stress: HYG 5D return " ++ fmt1 c' ++ "%" := by
  intro h
  have h2 := congrArg String.data h
  simp only [vix_rising_msg, String.data_append] at h2
  simp at h2

theorem vix_rising_msg_ne_dxy (c p c' : ℚ) :
    vix_rising_msg c p ≠ "Liquidity tightening: DXY 5D return +" ++ fmt1 c' ++ "%" := by
  intro h
  have h2 := congrArg String.data h
  simp only [vix_rising_msg, String.data_append] at h2
  simp at h2

theorem vix_rising_msg_ne_combined (c p s t : ℚ) :
    vix_rising_msg c p ≠ "Combined stress: SPY " ++ fmt1 s ++ "% and TLT " ++ fmt1 t ++ "%" := by
  intro h
  have h2 := congrArg String.data h
  simp only [vix_rising_msg, String.data_append] at h2
  simp at h2

theorem vix_rising_msg_ne_structural (c p : ℚ) :
    vix_rising_msg c p ≠ "Structural weakness: SPY below 200dma with rates rising" := by
  intro h
  have h2 := congrArg String.data h
  simp only [vix_rising_msg, String.data_append] at h2
  simp at h2

theorem vix_elevated_msg_ne_credit (c c' : ℚ) :
    vix_elevated_msg c ≠ "Credit stress: HYG 5D return " ++ fmt1 c' ++ "%" := by
  intro h
  have h2 := congrArg String.data h
  simp only [vix_elevated_msg, String.data_append] at h2
  simp at h2

theorem vix_elevated_msg_ne_dxy (c c' : ℚ) :
    vix_elevated_msg c ≠ "Liquidity tightening: DXY 5D return +" ++ fmt1 c' ++ "%" := by
  intro h
  have h2 := congrArg String.data h
  simp only [vix_elevated_msg, String.data_append] at h2
  simp at h2

theorem vix_elevated_msg_ne_combined (c s t : ℚ) :
    vix_elevated_msg c ≠ "Combined stress: SPY " ++ fmt1 s ++ "% and TLT " ++ fmt1 t ++ "%" := by
  intro h
  have h2 := congrArg String.data h
  simp only [vix_elevated_msg, String.data_append] at h2
  simp at h2

theorem vix_elevated_msg_ne_structural (c : ℚ) :
    vix_elevated_msg c ≠ "Structural weakness: SPY below 200dma with rates rising" := by
  intro h
  have h2 := congrArg String.data h
  simp only [vix_elevated_msg, String.data_append] at h2
  simp at h2

theorem vix_rising_msg_ne_elevated (c p c' : ℚ) :
    vix_rising_msg c p ≠ vix_elevated_msg c' := by
  intro h
  have h2 := congrArg String.data h
  simp only [vix_rising_msg, vix_elevated_msg, String.data_append] at h2
  simp at h2

theorem mem_regime_credit_part (th : List (String × ℚ)) (snap : MarketSnapshot) (m : String) :
    m ∈ regime_credit_part th snap →
      ∃ c, m = "Credit stress: HYG 5D return " ++ fmt1 c ++ "%" := by
  unfold regime_credit_part
  cases snap.get ("HYG") with
  | none => simp
  | some hyg =>
    dsimp only
    cases hyg.change_5d_pct with
    | none => simp
    | some c5 =>
      dsimp only
      split
      · intro hm
        exact ⟨c5, (List.mem_singleton.mp hm)⟩
      · simp

theorem mem_regime_dxy_part (th : List (String × ℚ)) (snap : MarketSnapshot) (m : String) :
    m ∈ regime_dxy_part th snap →
      ∃ c, m = "Liquidity tightening: DXY 5D return +" ++ fmt1 c ++ "%" := by
  unfold regime_dxy_part
  cases snap.get ("DX-Y.NYB") with
  | none => simp
  | some dxy =>
    dsimp only
    cases dxy.change_5d_pct with
    | none => simp
    | some c5 =>
      dsimp only
      split
      · intro hm
        exact ⟨c5, (List.mem_singleton.mp hm)⟩
      · simp

theorem mem_regime_combined_part (th : List (String × ℚ)) (snap : MarketSnapshot) (m : String) :
    m ∈ regime_combined_part th snap →
      ∃ s t, m = "Combined stress: SPY " ++ fmt1 s ++ "% and TLT " ++ fmt1 t ++ "%" := by
  unfold regime_combined_part
  cases snap.get ("SPY") with
  | none => simp
  | some spy =>
    cases snap.get ("TLT") with
    | none => simp
    | some tlt =>
      dsimp only
      split
      · intro hm
        exact ⟨spy.intraday_change_pct, tlt.intraday_change_pct, List.mem_singleton.mp hm⟩
      · simp

theorem mem_regime_structural_part (snap : MarketSnapshot) (m : String) :
    m ∈ regime_structural_part snap →
      m = "Structural weakness: SPY below 200dma with rates rising" := by
  unfold regime_structural_part
  cases snap.get ("SPY") with
  | none => simp
  | some spy =>
    dsimp only
    split
    · cases snap.get ("^TNX") with
      | none => simp
      | some tnx =>
        dsimp only
        split
        · intro hm
          exact List.mem_singleton.mp hm
        · simp
    · simp

theorem assess_regime_triggers (th : List (String × ℚ)) (prev : Option ℚ)
    (snap : MarketSnapshot) :
    (assess_regime th prev snap).triggers =
      regime_credit_part th snap ++ regime_dxy_part th snap ++
      regime_vix_part th prev snap ++ regime_combined_part th snap ++
      regime_structural_part snap := by
  unfold assess_regime
  dsimp only
  split <;> rfl

theorem regime_vix_part_eq_some (th : List (String × ℚ)) (p : ℚ)
    (snap : MarketSnapshot) (vix : SymbolData) (hv : snap.get ("^VIX") = some vix) :
    regime_vix_part th (some p) snap =
      (if vix.current_price ≥ (th.lookup ("vix_level_threshold")).getD (30) then
        (if vix.current_price > p then [vix_rising_msg vix.current_price p] else [])
       else []) := by
  unfold regime_vix_part vix_rising_msg
  rw [hv]

theorem regime_vix_part_eq_none (th : List (String × ℚ))
    (snap : MarketSnapshot) (vix : SymbolData) (hv : snap.get ("^VIX") = some vix) :
    regime_vix_part th none snap =
      (if vix.current_price ≥ (th.lookup ("vix_level_threshold")).getD (30) then
        [vix_elevated_msg vix.current_price]
       else []) := by
  unfold regime_vix_part vix_elevated_msg
  rw [hv]

/-- C7: the regime classifier's volatility trigger fires exactly when the
volatility index level is at or above the configured threshold (default 30,
the getD fallback) and strictly greater than its previous close; when the
previous close is unavailable it fires on the level alone with the
distinguishable degraded message; at or above threshold but not above an
available previous close, it does not fire. -/
theorem regime_vix_trigger_spec (th : List (String × ℚ)) (prev : Option ℚ)
    (snap : MarketSnapshot) (vix : SymbolData)
    (hv : snap.get ("^VIX") = some vix) :
    (∀ p : ℚ, prev = some p →
      ((vix_rising_msg vix.current_price p ∈ (assess_regime th prev snap).triggers) ↔
        (vix.current_price ≥ (th.lookup ("vix_level_threshold")).getD (30) ∧
         vix.current_price > p)) ∧
      vix_elevated_msg vix.current_price ∉ (assess_regime th prev snap).triggers) ∧
    (prev = none →
      ((vix_elevated_msg vix.current_price ∈ (assess_regime th prev snap).triggers) ↔
        vix.current_price ≥ (th.lookup ("vix_level_threshold")).getD (30)) ∧
      (∀ p : ℚ, vix_rising_msg vix.current_price p ∉ (assess_regime th prev snap).triggers)) ∧
    (∀ c p c' : ℚ, vix_rising_msg c p ≠ vix_elevated_msg c') := by
  refine ⟨?_, ?_, vix_rising_msg_ne_elevated⟩
  · intro p hp
    subst hp
    have hV := regime_vix_part_eq_some th p snap vix hv
    have hT := assess_regime_triggers th (some p) snap
    constructor
    · rw [hT]
      simp only [List.mem_append]
      constructor
      · rintro ((((h1 | h2) | h3) | h4) | h5)
        · obtain ⟨c', hc'⟩ := mem_regime_credit_part th snap _ h1
          exact absurd hc' (vix_rising_msg_ne_credit _ _ _)
        · obtain ⟨c', hc'⟩ := mem_regime_dxy_part th snap _ h2
          exact absurd hc' (vix_rising_msg_ne_dxy _ _ _)
        · rw [hV] at h3
          split_ifs at h3 with hc1 hc2
          · exact ⟨hc1, hc2⟩
          · simp at h3
          · simp at h3
        · obtain ⟨s, t, hst⟩ := mem_regime_combined_part th snap _ h4
          exact absurd hst (vix_rising_msg_ne_combined _ _ _ _)
        · exact absurd (mem_regime_structural_part snap _ h5)
            (vix_rising_msg_ne_structural _ _)
      · rintro ⟨hc1, hc2⟩
        refine Or.inl (Or.inl (Or.inr ?_))
        rw [hV, if_pos hc1, if_pos hc2]
        exact List.mem_singleton.mpr rfl
    · rw [hT]
      simp only [List.mem_append]
      rintro ((((h1 | h2) | h3) | h4) | h5)
      · obtain ⟨c', hc'⟩ := mem_regime_credit_part th snap _ h1
        exact absurd hc' (vix_elevated_msg_ne_credit _ _)
      · obtain ⟨c', hc'⟩ := mem_regime_dxy_part th snap _ h2
        exact absurd hc' (vix_elevated_msg_ne_dxy _ _)
      · rw [hV] at h3
        split_ifs at h3
        · exact absurd (List.mem_singleton.mp h3)
            (fun he => vix_rising_msg_ne_elevated _ _ _ he.symm)
        · simp at h3
        · simp at h3
      · obtain ⟨s, t, hst⟩ := mem_regime_combined_part th snap _ h4
        exact absurd hst (vix_elevated_msg_ne_combined _ _ _)
      · exact absurd (mem_regime_structural_part snap _ h5)
          (vix_elevated_msg_ne_structural _)
  · intro hp
    subst hp
    have hV := regime_vix_part_eq_none th snap vix hv
    have hT := assess_regime_triggers th none snap
    constructor
    · rw [hT]
      simp only [List.mem_append]
      constructor
      · rintro ((((h1 | h2) | h3) | h4) | h5)
        · obtain ⟨c', hc'⟩ := mem_regime_credit_part th snap _ h1
          exact absurd hc' (vix_elevated_msg_ne_credit _ _)
        · obtain ⟨c', hc'⟩ := mem_regime_dxy_part th snap _ h2
          exact absurd hc' (vix_elevated_msg_ne_dxy _ _)
        · rw [hV] at h3
          split_ifs at h3 with hc1
          · exact hc1
          · simp at h3
        · obtain ⟨s, t, hst⟩ := mem_regime_combined_part th snap _ h4
          exact absurd hst (vix_elevated_msg_ne_combined _ _ _)
        · exact absurd (mem_regime_structural_part snap _ h5)
            (vix_elevated_msg_ne_structural _)
      · intro hc1
        refine Or.inl (Or.inl (Or.inr ?_))
        rw [hV, if_pos hc1]
        exact List.mem_singleton.mpr rfl
    · intro p
      rw [hT]
      simp only [List.mem_append]
      rintro ((((h1 | h2) | h3) | h4) | h5)
      · obtain ⟨c', hc'⟩ := mem_regime_credit_part th snap _ h1
        exact absurd hc' (vix_rising_msg_ne_credit _ _ _)
      · obtain ⟨c', hc'⟩ := mem_regime_dxy_part th snap _ h2
        exact absurd hc' (vix_rising_msg_ne_dxy _ _ _)
      · rw [hV] at h3
        split_ifs at h3
        · exact absurd (List.mem_singleton.mp h3)
            (vix_rising_msg_ne_elevated _ _ _)
        · simp at h3
      · obtain ⟨s, t, hst⟩ := mem_regime_combined_part th snap _ h4
        exact absurd hst (vix_rising_msg_ne_combined _ _ _ _)
      · exact absurd (mem_regime_structural_part snap _ h5)
          (vix_rising_msg_ne_structural _ _)

/-- Snapshot with only the volatility index present, at level 35. -/
def vix_snapshot : MarketSnapshot :=
  ⟨0, [("^VIX", ⟨"^VIX", 35, 34, 0, none, none, none, none, "Volatility Index"⟩)]⟩

/-- C7 witness: with VIX at 35 (threshold 30) and previous close 30 the
rising trigger fires and the degraded message does not; with the previous
close unavailable the degraded message fires; the two messages differ. -/
theorem regime_vix_trigger_spec_witness :
    (vix_rising_msg 35 30 ∈
      (assess_regime load_regime_thresholds (some 30) vix_snapshot).triggers) ∧
    (vix_elevated_msg 35 ∉
      (assess_regime load_regime_thresholds (some 30) vix_snapshot).triggers) ∧
    (vix_elevated_msg 35 ∈
      (assess_regime load_regime_thresholds none vix_snapshot).triggers) ∧
    vix_rising_msg 35 30 ≠ vix_elevated_msg 35 := by
  have h1 := regime_vix_trigger_spec load_regime_thresholds (some 30) vix_snapshot
    ⟨"^VIX", 35, 34, 0, none, none, none, none, "Volatility Index"⟩ rfl
  have h2 := regime_vix_trigger_spec load_regime_thresholds none vix_snapshot
    ⟨"^VIX", 35, 34, 0, none, none, none, none, "Volatility Index"⟩ rfl
  exact ⟨(h1.1 30 rfl).1.mpr ⟨by decide, by decide⟩, (h1.1 30 rfl).2,
    (h2.2.1 rfl).1.mpr (by decide), h1.2.2 35 30 35⟩
